import Mathlib

/-!
Verification of the unfccc-submissions scraper (src/main.py) against its
natural-language specification.

The Python program is embedded shallowly:

* the browser DOM is abstracted as data the program reads: a panel page is a
  list of panel-title strings, a submission grid carries a text-lookup
  function (one entry per XPath the code queries) together with its
  submission sections and rows;
* Python dicts become association lists with Python's insertion-order
  semantics (assignment to an existing key updates the value in place,
  assignment to a fresh key appends);
* Python exceptions become `Except`; `find_text_element`, which swallows
  `NoSuchElementException`, returns `Option`;
* stateful loops (the reload/retry loop of `visit_main_page`) become
  explicit event traces over an oracle giving the outcome of each
  successive sanity check.
-/

/-! ## Constants from src/main.py -/

def MIN_SUBMISSIONS_SANITY_CHECK : Nat := 486

def MAX_RETRIES : Nat := 3

def SUBMISSIONS_URL : String := "https://www4.unfccc.int/sites/submissionsstaging/Pages/Home.aspx"

def RELEVANT_ENTITY_TYPES : List String :=
  ["IGO", "NAO", "NGO", "Elections Chairs and Coordinators", "Party", "UN", "Observer State"]

/-- The literal first argument of the `str.replace` call in `_parse_submissions`. -/
def BASE_PATH : String := "/sites/submissionsstaging/Pages/Home.aspx"

/-! ## The regex `(?<=\()[0-9]+(?=\))` of `minimum_of_submissions_sanity_check`

`re.search` scans start positions left to right.  A start position matches
exactly when the previous character is `(`, a non-empty digit run starts
here, and the maximal digit run is followed by `)` (shorter, backtracked
runs are followed by a digit, never by `)`).  `int(n.group(0))` converts
the digit run. -/

def digitsToNat (ds : List Char) : Nat :=
  ds.foldl (fun acc c => acc * 10 + (c.toNat - 48)) 0

def searchParenNum : Option Char → List Char → Option Nat
  | _, [] => Option.none
  | prev, c :: cs =>
    if prev == some '(' && c.isDigit then
      match (c :: cs).dropWhile Char.isDigit with
      | ')' :: _ => some (digitsToNat ((c :: cs).takeWhile Char.isDigit))
      | _ => searchParenNum (some c) cs
    else searchParenNum (some c) cs

/-- Result of `re.search(r"(?<=\()[0-9]+(?=\))", title)` followed by `int(...)`. -/
def regexSearchParenNum (title : String) : Option Nat :=
  searchParenNum Option.none title.toList

/-! ## minimum_of_submissions_sanity_check (src/main.py lines 64-83) -/

/-- The `for title in panel_titles` loop: accumulate `doc_count`, returning
`False` as soon as a title has no parenthesized number, and comparing the
sum against the threshold at the end. -/
def sanityLoop (min_heuristic : Nat) : List String → Nat → Bool
  | [], doc_count => decide (min_heuristic ≤ doc_count)
  | title :: rest, doc_count =>
    match regexSearchParenNum title with
    | some n => sanityLoop min_heuristic rest (doc_count + n)
    | Option.none => false

def minimum_of_submissions_sanity_check
    (panel_titles : List String) (min_heuristic : Nat := MIN_SUBMISSIONS_SANITY_CHECK) : Bool :=
  sanityLoop min_heuristic panel_titles 0

/-! ## visit_main_page (src/main.py lines 103-116)

The loop is modelled as the trace of its observable events.  The oracle
`check : Nat → Bool` gives the result the sanity check would report on the
page state produced by the n-th page load (load 0 is the initial
`_visit_main_page`).  The source counter `i` (which counts reloads and
triggers the raise once `i > MAX_RETRIES`) is represented by the remaining
budget `r = MAX_RETRIES - i`, so that the recursion is structural. -/

inductive VEv where
  | load
  | check (b : Bool)
  | sleep
  | raiseErr
  | ret
  deriving DecidableEq, Repr

/-- One spin of `while not minimum_of_submissions_sanity_check(...)`:
on a failed check the page is reloaded; if the retry budget is exhausted
(`i > MAX_RETRIES` in the source) a `ValueError` is raised, otherwise the
loop sleeps and re-checks. -/
def visitLoop (check : Nat → Bool) : Nat → Nat → List VEv
  | n, 0 =>
    if check n then [VEv.check true, VEv.ret]
    else [VEv.check false, VEv.load, VEv.raiseErr]
  | n, r + 1 =>
    if check n then [VEv.check true, VEv.ret]
    else VEv.check false :: VEv.load :: VEv.sleep :: visitLoop check (n + 1) r

def visit_main_page (check : Nat → Bool) : List VEv :=
  VEv.load :: visitLoop check 0 MAX_RETRIES

/-! ## Python values and dicts

A Python dict is an association list with unique keys; assignment
`d[k] = v` updates the value in place when `k` is present and appends a new
binding otherwise, and iteration order is insertion order. -/

inductive PyVal where
  | none
  | str (s : String)
  | list (items : List PyVal)
  | dict (entries : List (String × PyVal))

/-- Dict read `d.get(k)` / `d[k]`. -/
def pyLookup {β : Type} : List (String × β) → String → Option β
  | [], _ => Option.none
  | (k, v) :: rest, key => if k = key then some v else pyLookup rest key

/-- Dict assignment `d[k] = v`. -/
def pyInsert {β : Type} : List (String × β) → String → β → List (String × β)
  | [], k, v => [(k, v)]
  | (k0, v0) :: rest, k, v =>
    if k0 = k then (k0, v) :: rest else (k0, v0) :: pyInsert rest k v

/-- Key removal, as performed by `d.pop(k)`.  On a dict (whose keys are
unique) this removes the single binding for `k`. -/
def pyRemove {β : Type} : List (String × β) → String → List (String × β)
  | [], _ => []
  | (k0, v0) :: rest, k =>
    if k0 = k then pyRemove rest k else (k0, v0) :: pyRemove rest k

/-- Membership test `k in d`. -/
def pyContains {β : Type} (d : List (String × β)) (k : String) : Bool :=
  (pyLookup d k).isSome

/-- Dict merge `\x7b**a, **b\x7d`: the bindings of `b` are assigned over `a`
in order, later bindings overriding earlier ones. -/
def pyMerge {β : Type} (a b : List (String × β)) : List (String × β) :=
  b.foldl (fun d kv => pyInsert d kv.1 kv.2) a

/-! ## Python `str.replace` (used on `driver.current_url`)

`s.replace(pat, rep)` replaces every non-overlapping occurrence of `pat`,
scanning left to right.  (The `pat = ""` corner case of Python never arises:
the program only replaces the non-empty `BASE_PATH` literal.) -/

def pyReplace (s pat rep : List Char) : List Char :=
  match s with
  | [] => []
  | c :: cs =>
    if h : pat ≠ [] ∧ pat.isPrefixOf (c :: cs) = true then
      rep ++ pyReplace ((c :: cs).drop pat.length) pat rep
    else
      c :: pyReplace cs pat rep
termination_by s.length
decreasing_by
  · simp only [List.length_drop, List.length_cons]
    have hp : 0 < pat.length := List.length_pos.mpr h.1
    omega
  · simp

def pyReplaceStr (s pat rep : String) : String :=
  String.mk (pyReplace s.toList pat.toList rep.toList)

/-! ## The scraped DOM

`Elem` abstracts a Selenium `WebElement` as far as the program observes it:
`elem xpath` is the text of `elem.find_element(By.XPATH, xpath)`, or the
raised `NoSuchElementException`. -/

inductive SelErr where
  | noSuchElement
  deriving DecidableEq, Repr

abbrev Elem : Type := String → Except SelErr String

/-- A `div.row.tablefilerow` submission row: its `fileref` attribute and its
text fields. -/
structure SubmissionRow where
  fileref : String
  fields : Elem

/-- A `div.submissionssection`: its `entitytype` attribute (`get_attribute`
yields `None` when the attribute is absent) and its submission rows. -/
structure SubmissionSection where
  entitytype : Option String
  rows : List SubmissionRow

/-- A `div.soby_gridcell` submission grid: its call-level text fields and
its submission sections. -/
structure SubmissionGrid where
  fields : Elem
  sections : List SubmissionSection

/-- A collapsible panel: the grids rendered after opening it, followed by
the grids rendered after each successive click on the next-page control
(the control is present exactly while `morePages` is non-empty). -/
structure Panel where
  firstPage : List SubmissionGrid
  morePages : List (List SubmissionGrid)

/-! ## find_text_element (src/main.py lines 184-196) -/

/-- `find_element(...).text`, with `NoSuchElementException` caught and
turned into `None` (the Python function falls through and returns `None`). -/
def find_text_element (elem : Elem) (xpath : String) : Option String :=
  match elem xpath with
  | Except.ok t => some t
  | Except.error SelErr.noSuchElement => Option.none

/-- A Python value that is either the found text or `None`. -/
def optVal : Option String → PyVal
  | Option.none => PyVal.none
  | some s => PyVal.str s

/-! ## XPath literals of `_parse_submissions` (apostrophes written `\x27`) -/

def XP_ISSUE : String := ".//div[@class = \x27submissioncallarea\x27]/div//div[@class = \x27col-md-10 issue\x27]"

def XP_DEADLINE : String := ".//div[@class = \x27submissioncallarea\x27]/div//div[@class = \x27col-md-7 deadline\x27]"

def XP_TITLE : String := ".//div[@class = \x27submissioncallarea\x27]/div//div[@class = \x27col-md-10 cfstitle\x27]"

def XP_MANDATE : String := ".//div[@class = \x27submissioncallarea\x27]/div//div[@class = \x27col-md-10 mandate\x27]"

def XP_FILENAME : String := ".//div[@class = \x27col-sm-4 filename\x27]"

def XP_ENTITY : String := ".//div[@class = \x27col-sm-4 entity\x27]"

def XP_LANGUAGE : String := ".//div[@class = \x27col-sm-2 language\x27]"

def XP_DATE : String := ".//div[@class = \x27col-sm-2 submissiondate\x27]"

/-- The optional call-level text fields of a grid, as (dict key, XPath). -/
def GRID_FIELDS : List (String × String) :=
  [("issue", XP_ISSUE), ("deadline", XP_DEADLINE), ("title", XP_TITLE), ("mandate", XP_MANDATE)]

/-- The optional text fields of a submission row, as (dict key, XPath). -/
def ROW_FIELDS : List (String × String) :=
  [("submission_name", XP_FILENAME), ("submission_entity", XP_ENTITY),
   ("submission_language", XP_LANGUAGE), ("submission_date", XP_DATE)]

/-! ## _parse_submissions (src/main.py lines 199-261) -/

/-- The dict built for one `submission` row: `sub_url` is
`driver.current_url.replace("/sites/submissionsstaging/Pages/Home.aspx", submission.get_attribute("fileref"))`. -/
def parseRow (currentUrl : String) (row : SubmissionRow) : List (String × PyVal) :=
  let sub_url := pyReplaceStr currentUrl BASE_PATH row.fileref
  [("submission_name", optVal (find_text_element row.fields XP_FILENAME)),
   ("submission_entity", optVal (find_text_element row.fields XP_ENTITY)),
   ("submission_language", optVal (find_text_element row.fields XP_LANGUAGE)),
   ("submission_date", optVal (find_text_element row.fields XP_DATE)),
   ("submission_url", PyVal.str sub_url)]

/-- Append an element to the list stored at key `k`
(`sub_dict["submissions"][entity_type].append(...)`).  The key always holds
a list at this point, having just been initialised to `[]`. -/
def pyValAppend : PyVal → PyVal → PyVal
  | PyVal.list l, v => PyVal.list (l ++ [v])
  | x, _ => x

def pyAppendAt : List (String × PyVal) → String → PyVal → List (String × PyVal)
  | [], _, _ => []
  | (k0, v0) :: rest, k, v =>
    if k0 = k then (k0, pyValAppend v0 v) :: pyAppendAt rest k v
    else (k0, v0) :: pyAppendAt rest k v

/-- The body of `for submission_section in submission_sections`: a section
whose `entitytype` is in the allow-list gets its bucket reset to `[]` and
then refilled from its rows; any other section is skipped. -/
def sectionStep (currentUrl : String) (d : List (String × PyVal)) (sec : SubmissionSection) :
    List (String × PyVal) :=
  match sec.entitytype with
  | some et =>
    if et ∈ RELEVANT_ENTITY_TYPES then
      let d1 := pyInsert d et (PyVal.list [])
      if sec.rows.isEmpty then d1
      else sec.rows.foldl (fun d2 row => pyAppendAt d2 et (PyVal.dict (parseRow currentUrl row))) d1
    else d
  | Option.none => d

/-- The whole sections loop, building the `sub_dict["submissions"]` dict.
The source mutates the nested dict in place; here the nested dict is
threaded through the loop and stored once at the end, which yields the same
dict. -/
def parseSections (currentUrl : String) (secs : List SubmissionSection)
    (d : List (String × PyVal)) : List (String × PyVal) :=
  secs.foldl (sectionStep currentUrl) d

/-- The dict built for one `submission_grid` (the body of
`for submission_grid in submission_grids`). -/
def parseGrid (currentUrl : String) (grid : SubmissionGrid) : List (String × PyVal) :=
  let d := pyInsert [] "issue" (optVal (find_text_element grid.fields XP_ISSUE))
  let d := pyInsert d "deadline" (optVal (find_text_element grid.fields XP_DEADLINE))
  let d := pyInsert d "title" (optVal (find_text_element grid.fields XP_TITLE))
  let d := pyInsert d "mandate" (optVal (find_text_element grid.fields XP_MANDATE))
  pyInsert d "submissions" (PyVal.dict (parseSections currentUrl grid.sections []))

/-- `_parse_submissions`: one dict per currently rendered grid, in order. -/
def parseSubmissionsOnPage (currentUrl : String) (grids : List SubmissionGrid) :
    List (List (String × PyVal)) :=
  grids.map (parseGrid currentUrl)

/-! ## parse_submissions (src/main.py lines 264-297) -/

/-- The `while True` pagination loop of `parse_submissions`: parse the
rendered grids, then follow the next-page control until it is absent
(`driver.find_element` raising ends the loop via `except: break`). -/
def paginate (currentUrl : String) :
    List SubmissionGrid → List (List SubmissionGrid) →
    List (List (String × PyVal)) → List (List (String × PyVal))
  | cur, rest, subs_container =>
    let acc := subs_container ++ parseSubmissionsOnPage currentUrl cur
    match rest with
    | [] => acc
    | p :: ps => paginate currentUrl p ps acc

/-- `parse_submissions`: open each panel in turn, run the pagination loop,
and wrap the collected dicts in the query-metadata envelope. -/
def parse_submissions (currentUrl collected_at : String) (panels : List Panel) :
    List (String × PyVal) :=
  let subs_container :=
    panels.foldl (fun acc pan => paginate currentUrl pan.firstPage pan.morePages acc) []
  [("data_source", PyVal.str SUBMISSIONS_URL),
   ("collected_at", PyVal.str collected_at),
   ("submissions_data", PyVal.list (subs_container.map PyVal.dict))]

/-! ## write_to_csv (src/main.py lines 306-327)

The values flowing through the loop are dicts produced by
`_parse_submissions`; shapes Python would crash on (a non-dict issue, a
non-list bucket, a missing key for `pop`) are modelled as `Except.error`,
mirroring the exception Python raises there. -/

/-- Effectful map over `Except`, stopping at the first error (the behaviour
of a Python `for` loop whose body may raise). -/
def mapExcept {α β ε : Type} (f : α → Except ε β) : List α → Except ε (List β)
  | [] => Except.ok []
  | a :: rest =>
    match f a with
    | Except.error e => Except.error e
    | Except.ok b =>
      match mapExcept f rest with
      | Except.error e => Except.error e
      | Except.ok bs => Except.ok (b :: bs)

/-- The list comprehension renaming the keys of an issue dict:
`f"issue_\x7b_\x7d" if _ not in ["issue", "submissions"] else _`. -/
def renameKey (k : String) : String :=
  if k = "issue" || k = "submissions" then k else "issue_" ++ k

/-- The dict comprehension `\x7bk: v for k, v in zip(new_keys, issue.values())\x7d`. -/
def renameIssueKeys (issue : List (String × PyVal)) : List (String × PyVal) :=
  issue.foldl (fun d kv => pyInsert d (renameKey kv.1) kv.2) []

/-- The per-row call-level fields: the renamed issue dict, merged with the
(already popped) envelope metadata, with `submissions` popped off. -/
def callFields (meta issue : List (String × PyVal)) : List (String × PyVal) :=
  pyRemove (pyMerge (renameIssueKeys issue) meta) "submissions"

/-- `submission_metadata["entity_type"] = submission_entity_type` followed
by `container.append(\x7b**submission_metadata, **issue\x7d)`. -/
def csvRowOf (fields : List (String × PyVal)) (et : String) :
    PyVal → Except String (List (String × PyVal))
  | PyVal.dict sd => Except.ok (pyMerge (pyInsert sd "entity_type" (PyVal.str et)) fields)
  | _ => Except.error "TypeError"

/-- One `(submission_entity_type, submission_list)` item of
`issue_specific_submissions.items()`. -/
def csvRowsOfBucket (fields : List (String × PyVal)) :
    String × PyVal → Except String (List (List (String × PyVal)))
  | (et, PyVal.list subs) => mapExcept (csvRowOf fields et) subs
  | (_, _) => Except.error "TypeError"

/-- The body of `for issue in submissions_all`: issues without a
`submissions` key contribute nothing; otherwise the keys are renamed, the
envelope metadata merged in, `submissions` popped, and one row emitted per
submission of every bucket. -/
def csvRowsOfIssue (meta : List (String × PyVal)) :
    PyVal → Except String (List (List (String × PyVal)))
  | PyVal.dict issue =>
    if pyContains issue "submissions" then
      match pyLookup (pyMerge (renameIssueKeys issue) meta) "submissions" with
      | some (PyVal.dict buckets) =>
        match mapExcept (csvRowsOfBucket (callFields meta issue)) buckets with
        | Except.ok rowss => Except.ok rowss.flatten
        | Except.error e => Except.error e
      | some _ => Except.error "TypeError"
      | Option.none => Except.error "KeyError"
    else Except.ok []
  | _ => Except.error "TypeError"

/-- `write_to_csv`: pops `submissions_data` off the envelope (a mutation of
the caller's dict, modelled by returning the post-state), flattens every
issue into rows, and hands the rows to `pandas.DataFrame(...).to_csv`.
Returns (rows written to the CSV, envelope after the pop). -/
def write_to_csv (submissions_data : List (String × PyVal)) :
    Except String (List (List (String × PyVal)) × List (String × PyVal)) :=
  match pyLookup submissions_data "submissions_data" with
  | Option.none => Except.error "KeyError"
  | some submissions_all =>
    let meta := pyRemove submissions_data "submissions_data"
    match submissions_all with
    | PyVal.list issues =>
      match mapExcept (csvRowsOfIssue meta) issues with
      | Except.ok rowss => Except.ok (rowss.flatten, meta)
      | Except.error e => Except.error e
    | _ => Except.error "TypeError"

/-! ## write_to_json and main (src/main.py lines 300-303 and 330-338) -/

inductive OutFile where
  | json (content : List (String × PyVal))
  | csv (rows : List (List (String × PyVal)))

/-- `write_to_json` dumps its argument as is. -/
def write_to_json (submissions_data : List (String × PyVal)) : OutFile :=
  OutFile.json submissions_data

/-- `main`: deploy the browser, visit the main page, parse, then write the
JSON and the CSV.  The outcomes of the two fallible browser phases are the
parameters; an uncaught exception anywhere stops the run, so the returned
pair is (files written so far, the propagated error if any). -/
def mainRun (visitResult : Except String Unit)
    (parseResult : Except String (List (String × PyVal))) :
    List OutFile × Option String :=
  match visitResult with
  | Except.error e => ([], some e)
  | Except.ok _ =>
    match parseResult with
    | Except.error e => ([], some e)
    | Except.ok submissions_data =>
      let written := [write_to_json submissions_data]
      match write_to_csv submissions_data with
      | Except.error e => (written, some e)
      | Except.ok (rows, _) => (written ++ [OutFile.csv rows], Option.none)

/-! ## Supporting lemmas -/

theorem sanityLoop_true_iff (ts : List String) :
    ∀ (ns : List Nat) (acc m : Nat),
      ts.map regexSearchParenNum = ns.map some →
      (sanityLoop m ts acc = true ↔ m ≤ acc + ns.sum) := by
  induction ts with
  | nil =>
    intro ns acc m h
    have hns : ns = [] := by
      cases ns with
      | nil => rfl
      | cons n ns => simp at h
    subst hns
    simp [sanityLoop]
  | cons t ts ih =>
    intro ns acc m h
    cases ns with
    | nil => simp at h
    | cons n ns =>
      simp only [List.map_cons, List.cons.injEq] at h
      obtain ⟨h1, h2⟩ := h
      rw [List.sum_cons]
      have := ih ns (acc + n) m h2
      simp only [sanityLoop, h1]
      rw [this]
      omega

theorem visitLoop_all_fail (c : Nat → Bool) :
    ∀ (r n : Nat), (∀ m, m ≤ r → c (n + m) = false) →
      visitLoop c n r =
        (List.replicate r [VEv.check false, VEv.load, VEv.sleep]).flatten
          ++ [VEv.check false, VEv.load, VEv.raiseErr] := by
  intro r
  induction r with
  | zero =>
    intro n h
    have h0 : c n = false := by simpa using h 0 (by omega)
    simp [visitLoop, h0]
  | succ r ih =>
    intro n h
    have h0 : c n = false := by simpa using h 0 (by omega)
    have hrec := ih (n + 1) (fun m hm => by
      have h2 := h (m + 1) (by omega)
      have e : n + 1 + m = n + (m + 1) := by omega
      rw [e]; exact h2)
    simp [visitLoop, h0, hrec, List.replicate_succ]

theorem visitLoop_success (c : Nat → Bool) :
    ∀ (k r n : Nat), k ≤ r → (∀ m, m < k → c (n + m) = false) → c (n + k) = true →
      visitLoop c n r =
        (List.replicate k [VEv.check false, VEv.load, VEv.sleep]).flatten
          ++ [VEv.check true, VEv.ret] := by
  intro k
  induction k with
  | zero =>
    intro r n _ _ hk
    have h0 : c n = true := by simpa using hk
    cases r with
    | zero => simp [visitLoop, h0]
    | succ r => simp [visitLoop, h0]
  | succ k ih =>
    intro r n hle hfail hk
    cases r with
    | zero => omega
    | succ r =>
      have h0 : c n = false := by simpa using hfail 0 (by omega)
      have hrec := ih r (n + 1) (by omega)
        (fun m hm => by
          have h2 := hfail (m + 1) (by omega)
          have e : n + 1 + m = n + (m + 1) := by omega
          rw [e]; exact h2)
        (by
          have : n + 1 + k = n + (k + 1) := by omega
          rw [this]
          exact hk)
      simp [visitLoop, h0, hrec, List.replicate_succ]

/-! ## Claims -/

/-- C1: for every page whose panel titles each carry a parenthesized
integer count, `minimum_of_submissions_sanity_check` returns true iff the
sum of those counts is at least `MIN_SUBMISSIONS_SANITY_CHECK` (486). -/
theorem sanity_check_true_iff_sum_ge_threshold
    (panel_titles : List String) (ns : List Nat)
    (h : panel_titles.map regexSearchParenNum = ns.map some) :
    minimum_of_submissions_sanity_check panel_titles MIN_SUBMISSIONS_SANITY_CHECK = true ↔
      MIN_SUBMISSIONS_SANITY_CHECK ≤ ns.sum := by
  have := sanityLoop_true_iff panel_titles ns 0 MIN_SUBMISSIONS_SANITY_CHECK h
  simpa [minimum_of_submissions_sanity_check] using this

theorem sanity_check_true_iff_sum_ge_threshold_witness :
    (minimum_of_submissions_sanity_check
        ["Calls for submissions (250)", "Previous calls (236)"]
        MIN_SUBMISSIONS_SANITY_CHECK = true ↔
      MIN_SUBMISSIONS_SANITY_CHECK ≤ List.sum [250, 236]) :=
  sanity_check_true_iff_sum_ge_threshold
    ["Calls for submissions (250)", "Previous calls (236)"] [250, 236] (by decide)

/-- C2 (counterexample to the claim as stated): when every sanity check
fails, the all-fail trace of `visit_main_page` contains five page loads,
i.e. four reloads beyond the initial load — more than the claimed bound of
MAX_RETRIES (3) reloads. -/
theorem visit_main_page_counterexample_reload_count :
    (visit_main_page (fun _ => false)).count VEv.load = 5 ∧
      ¬((visit_main_page (fun _ => false)).count VEv.load ≤ 1 + MAX_RETRIES) := by
  decide

/-- C2 (amended): `visit_main_page` re-checks at most MAX_RETRIES (3) times
beyond the initial check, sleeping before each re-check; when every check
fails it performs one further reload (four reloads beyond the initial load
in total) and then raises the terminal ValueError without re-checking; it
returns normally as soon as one check succeeds. -/
theorem visit_main_page_retry_and_raise (c : Nat → Bool) :
    ((∀ n, n ≤ MAX_RETRIES → c n = false) →
      visit_main_page c =
        VEv.load ::
          ((List.replicate MAX_RETRIES [VEv.check false, VEv.load, VEv.sleep]).flatten
            ++ [VEv.check false, VEv.load, VEv.raiseErr])) ∧
    (∀ k, k ≤ MAX_RETRIES → (∀ m, m < k → c m = false) → c k = true →
      visit_main_page c =
        VEv.load ::
          ((List.replicate k [VEv.check false, VEv.load, VEv.sleep]).flatten
            ++ [VEv.check true, VEv.ret])) := by
  constructor
  · intro h
    have := visitLoop_all_fail c MAX_RETRIES 0 (fun m hm => by simpa using h m hm)
    simp [visit_main_page, this]
  · intro k hk hfail hsucc
    have := visitLoop_success c k MAX_RETRIES 0 hk
      (fun m hm => by simpa using hfail m hm) (by simpa using hsucc)
    simp [visit_main_page, this]

theorem visit_main_page_retry_and_raise_witness :
    (visit_main_page (fun _ => false) =
      VEv.load ::
        ((List.replicate MAX_RETRIES [VEv.check false, VEv.load, VEv.sleep]).flatten
          ++ [VEv.check false, VEv.load, VEv.raiseErr])) ∧
    (visit_main_page (fun n => decide (n = 1)) =
      VEv.load ::
        ((List.replicate 1 [VEv.check false, VEv.load, VEv.sleep]).flatten
          ++ [VEv.check true, VEv.ret])) :=
  ⟨(visit_main_page_retry_and_raise (fun _ => false)).1 (fun _ _ => rfl),
   (visit_main_page_retry_and_raise (fun n => decide (n = 1))).2 1 (by decide)
     (by decide) (by decide)⟩

/-- C4: whenever the sanity-check phase or the parse phase (including
panel-open failures) ends in an uncaught exception, `main` writes no output
file at all and the run aborts with that error. -/
theorem main_writes_nothing_on_early_failure
    (v : Except String Unit) (p : Except String (List (String × PyVal)))
    (h : (∃ e, v = Except.error e) ∨ (∃ e, p = Except.error e)) :
    (mainRun v p).1 = [] ∧ (mainRun v p).2.isSome = true := by
  cases v with
  | error e => simp [mainRun]
  | ok u =>
    cases p with
    | error e => simp [mainRun]
    | ok env =>
      rcases h with ⟨e, he⟩ | ⟨e, he⟩ <;> simp at he

theorem main_writes_nothing_on_early_failure_witness :
    (mainRun (Except.error "ValueError") (Except.ok [])).1 = [] ∧
      (mainRun (Except.error "ValueError") (Except.ok [])).2.isSome = true :=
  main_writes_nothing_on_early_failure (Except.error "ValueError") (Except.ok [])
    (Or.inl ⟨"ValueError", rfl⟩)

/-! ## Dict lemmas -/

theorem pyLookup_pyInsert_self {β : Type} (d : List (String × β)) (k : String) (v : β) :
    pyLookup (pyInsert d k v) k = some v := by
  induction d with
  | nil => simp [pyInsert, pyLookup]
  | cons kv rest ih =>
    by_cases h : kv.1 = k
    · simp [pyInsert, pyLookup, h]
    · simp [pyInsert, pyLookup, h, ih]

theorem pyLookup_pyInsert_ne {β : Type} (d : List (String × β)) (k k' : String) (v : β)
    (h : k' ≠ k) : pyLookup (pyInsert d k v) k' = pyLookup d k' := by
  induction d with
  | nil =>
    simp only [pyInsert, pyLookup]
    rw [if_neg (fun he => h he.symm)]
  | cons kv rest ih =>
    obtain ⟨k0, v0⟩ := kv
    by_cases h1 : k0 = k
    · have hk0 : ¬k0 = k' := fun he => h (h1 ▸ he).symm
      simp only [pyInsert, if_pos h1, pyLookup, if_neg hk0]
    · by_cases h2 : k0 = k'
      · simp only [pyInsert, if_neg h1, pyLookup, if_pos h2]
      · simp only [pyInsert, if_neg h1, pyLookup, if_neg h2, ih]

theorem pyLookup_pyRemove_self {β : Type} (d : List (String × β)) (k : String) :
    pyLookup (pyRemove d k) k = Option.none := by
  induction d with
  | nil => rfl
  | cons kv rest ih =>
    obtain ⟨k0, v0⟩ := kv
    by_cases h : k0 = k
    · simp only [pyRemove, if_pos h, ih]
    · simp only [pyRemove, if_neg h, pyLookup, if_neg h, ih]

theorem pyLookup_pyRemove_ne {β : Type} (d : List (String × β)) (k k' : String)
    (h : k' ≠ k) : pyLookup (pyRemove d k) k' = pyLookup d k' := by
  induction d with
  | nil => rfl
  | cons kv rest ih =>
    obtain ⟨k0, v0⟩ := kv
    by_cases h1 : k0 = k
    · have hk0 : ¬k0 = k' := fun he => h (h1 ▸ he).symm
      simp only [pyRemove, if_pos h1, pyLookup, if_neg hk0, ih]
    · by_cases h2 : k0 = k'
      · simp only [pyRemove, if_neg h1, pyLookup, if_pos h2]
      · simp only [pyRemove, if_neg h1, pyLookup, if_neg h2, ih]

theorem pyLookup_pyAppendAt_self (d : List (String × PyVal)) (k : String) (v : PyVal) :
    pyLookup (pyAppendAt d k v) k = (pyLookup d k).map (fun x => pyValAppend x v) := by
  induction d with
  | nil => rfl
  | cons kv rest ih =>
    obtain ⟨k0, v0⟩ := kv
    by_cases h : k0 = k
    · simp only [pyAppendAt, if_pos h, pyLookup, if_pos h]
      rfl
    · simp only [pyAppendAt, if_neg h, pyLookup]
      exact ih

theorem pyLookup_pyAppendAt_ne (d : List (String × PyVal)) (k k' : String) (v : PyVal)
    (h : k' ≠ k) : pyLookup (pyAppendAt d k v) k' = pyLookup d k' := by
  induction d with
  | nil => rfl
  | cons kv rest ih =>
    obtain ⟨k0, v0⟩ := kv
    by_cases h1 : k0 = k
    · have hk0 : ¬k0 = k' := fun he => h (h1 ▸ he).symm
      simp only [pyAppendAt, if_pos h1, pyLookup, if_neg hk0]
      exact ih
    · by_cases h2 : k0 = k'
      · simp only [pyAppendAt, if_neg h1, pyLookup, if_pos h2]
      · simp only [pyAppendAt, if_neg h1, pyLookup, if_neg h2]
        exact ih

/-! ## Section-loop lemmas -/

theorem lookup_rows_foldl (u et : String) (rows : List SubmissionRow) :
    ∀ (d : List (String × PyVal)) (l0 : List PyVal),
      pyLookup d et = some (PyVal.list l0) →
      pyLookup
          (rows.foldl (fun d2 row => pyAppendAt d2 et (PyVal.dict (parseRow u row))) d) et
        = some (PyVal.list (l0 ++ rows.map (fun r => PyVal.dict (parseRow u r)))) := by
  induction rows with
  | nil => intro d l0 h; simpa using h
  | cons r rows ih =>
    intro d l0 h
    have step : pyLookup (pyAppendAt d et (PyVal.dict (parseRow u r))) et
        = some (PyVal.list (l0 ++ [PyVal.dict (parseRow u r)])) := by
      rw [pyLookup_pyAppendAt_self, h]
      rfl
    have := ih (pyAppendAt d et (PyVal.dict (parseRow u r))) (l0 ++ [PyVal.dict (parseRow u r)]) step
    simpa [List.append_assoc] using this

theorem lookup_rows_foldl_ne (u et et' : String) (h : et ≠ et') (rows : List SubmissionRow) :
    ∀ (d : List (String × PyVal)),
      pyLookup
          (rows.foldl (fun d2 row => pyAppendAt d2 et' (PyVal.dict (parseRow u row))) d) et
        = pyLookup d et := by
  induction rows with
  | nil => intro d; rfl
  | cons r rows ih =>
    intro d
    rw [List.foldl_cons, ih, pyLookup_pyAppendAt_ne _ _ _ _ h]

theorem sectionStep_lookup_matched (u : String) (d : List (String × PyVal))
    (sec : SubmissionSection) (et : String)
    (h1 : sec.entitytype = some et) (h2 : et ∈ RELEVANT_ENTITY_TYPES) :
    pyLookup (sectionStep u d sec) et
      = some (PyVal.list (sec.rows.map (fun r => PyVal.dict (parseRow u r)))) := by
  unfold sectionStep
  rw [h1]
  simp only [h2, if_true]
  by_cases hr : sec.rows.isEmpty
  · have : sec.rows = [] := List.isEmpty_iff.mp hr
    simp [hr, this, pyLookup_pyInsert_self]
  · simp only [hr, if_false]
    exact lookup_rows_foldl u et sec.rows _ [] (pyLookup_pyInsert_self d et (PyVal.list []))

theorem sectionStep_lookup_other (u : String) (d : List (String × PyVal))
    (sec : SubmissionSection) (et : String)
    (h : ¬(sec.entitytype = some et ∧ et ∈ RELEVANT_ENTITY_TYPES)) :
    pyLookup (sectionStep u d sec) et = pyLookup d et := by
  unfold sectionStep
  cases hety : sec.entitytype with
  | none => rfl
  | some et' =>
    by_cases hrel : et' ∈ RELEVANT_ENTITY_TYPES
    · have hne : et ≠ et' := by
        intro he
        exact h ⟨by rw [hety, he], by rw [he]; exact hrel⟩
      simp only [hrel, if_true]
      by_cases hr : sec.rows.isEmpty = true
      · rw [if_pos hr]
        exact pyLookup_pyInsert_ne _ _ _ _ hne
      · rw [if_neg hr, lookup_rows_foldl_ne u et et' hne, pyLookup_pyInsert_ne _ _ _ _ hne]
    · simp [hrel]

/-- The last section of `secs` whose `entitytype` attribute is `et`. -/
def lastSectionWith (secs : List SubmissionSection) (et : String) : Option SubmissionSection :=
  (secs.filter (fun sec => decide (sec.entitytype = some et))).getLast?

theorem parseSections_lookup (u et : String) (h2 : et ∈ RELEVANT_ENTITY_TYPES) :
    ∀ (secs : List SubmissionSection) (d : List (String × PyVal)),
      pyLookup (parseSections u secs d) et =
        (match lastSectionWith secs et with
          | some sec => some (PyVal.list (sec.rows.map (fun r => PyVal.dict (parseRow u r))))
          | Option.none => pyLookup d et) := by
  intro secs
  induction secs with
  | nil => intro d; simp [parseSections, lastSectionWith]
  | cons sec secs ih =>
    intro d
    have hstep : parseSections u (sec :: secs) d = parseSections u secs (sectionStep u d sec) := rfl
    rw [hstep, ih]
    by_cases hm : sec.entitytype = some et
    · have hfil : (sec :: secs).filter (fun s => decide (s.entitytype = some et))
          = sec :: secs.filter (fun s => decide (s.entitytype = some et)) := by
        simp [List.filter_cons, hm]
      cases hfl : (secs.filter (fun s => decide (s.entitytype = some et))).getLast? with
      | some s' =>
        have : lastSectionWith (sec :: secs) et = some s' := by
          unfold lastSectionWith
          rw [hfil]
          have hne : secs.filter (fun s => decide (s.entitytype = some et)) ≠ [] := by
            intro he
            rw [he] at hfl
            simp at hfl
          cases hfe : secs.filter (fun s => decide (s.entitytype = some et)) with
          | nil => exact absurd hfe hne
          | cons a l =>
            rw [List.getLast?_cons_cons]
            rw [hfe] at hfl
            exact hfl
        rw [this]
        unfold lastSectionWith
        rw [hfl]
      | none =>
        have hfe : secs.filter (fun s => decide (s.entitytype = some et)) = [] := by
          simpa using hfl
        have : lastSectionWith (sec :: secs) et = some sec := by
          unfold lastSectionWith
          rw [hfil, hfe]
          rfl
        rw [this]
        unfold lastSectionWith
        rw [hfe]
        simp
        exact sectionStep_lookup_matched u d sec et hm h2
    · have hfil : (sec :: secs).filter (fun s => decide (s.entitytype = some et))
          = secs.filter (fun s => decide (s.entitytype = some et)) := by
        simp [List.filter_cons, hm]
      have hlast : lastSectionWith (sec :: secs) et = lastSectionWith secs et := by
        unfold lastSectionWith
        rw [hfil]
      rw [hlast]
      cases hfl : lastSectionWith secs et with
      | some s' => rfl
      | none =>
        simp only []
        exact sectionStep_lookup_other u d sec et (fun hc => hm hc.1)

theorem parseSections_lookup_not_relevant (u et : String) (h : et ∉ RELEVANT_ENTITY_TYPES) :
    ∀ (secs : List SubmissionSection) (d : List (String × PyVal)),
      pyLookup (parseSections u secs d) et = pyLookup d et := by
  intro secs
  induction secs with
  | nil => intro d; rfl
  | cons sec secs ih =>
    intro d
    have hstep : parseSections u (sec :: secs) d = parseSections u secs (sectionStep u d sec) := rfl
    rw [hstep, ih]
    exact sectionStep_lookup_other u d sec et (fun hc => h hc.2)

/-- The dict built by `parseGrid`, spelled out. -/
theorem parseGrid_eq (u : String) (g : SubmissionGrid) :
    parseGrid u g =
      [("issue", optVal (find_text_element g.fields XP_ISSUE)),
       ("deadline", optVal (find_text_element g.fields XP_DEADLINE)),
       ("title", optVal (find_text_element g.fields XP_TITLE)),
       ("mandate", optVal (find_text_element g.fields XP_MANDATE)),
       ("submissions", PyVal.dict (parseSections u g.sections []))] := rfl

/-- C7: a submission section whose `entitytype` label is outside
RELEVANT_ENTITY_TYPES produces no bucket in the `submissions` dict of the
grid's record, so none of its rows appear in the output. -/
theorem irrelevant_label_has_no_bucket (u : String) (g : SubmissionGrid) (et : String)
    (h : et ∉ RELEVANT_ENTITY_TYPES) :
    pyLookup (parseGrid u g) "submissions"
        = some (PyVal.dict (parseSections u g.sections [])) ∧
      pyLookup (parseSections u g.sections []) et = Option.none := by
  constructor
  · rfl
  · rw [parseSections_lookup_not_relevant u et h g.sections []]
    rfl

theorem irrelevant_label_has_no_bucket_witness :
    pyLookup
        (parseGrid "u"
          (SubmissionGrid.mk (fun _ => Except.error SelErr.noSuchElement)
            [SubmissionSection.mk (some "Media")
              [SubmissionRow.mk "f" (fun _ => Except.error SelErr.noSuchElement)]]))
        "submissions"
      = some (PyVal.dict
          (parseSections "u"
            [SubmissionSection.mk (some "Media")
              [SubmissionRow.mk "f" (fun _ => Except.error SelErr.noSuchElement)]] [])) ∧
      pyLookup
        (parseSections "u"
          [SubmissionSection.mk (some "Media")
            [SubmissionRow.mk "f" (fun _ => Except.error SelErr.noSuchElement)]] [])
        "Media" = Option.none :=
  irrelevant_label_has_no_bucket "u"
    (SubmissionGrid.mk (fun _ => Except.error SelErr.noSuchElement)
      [SubmissionSection.mk (some "Media")
        [SubmissionRow.mk "f" (fun _ => Except.error SelErr.noSuchElement)]])
    "Media" (by decide)

/-- C10: for an allow-listed label, the bucket in the `submissions` dict is
exactly the rows of the LAST section carrying that label (so a bucket is
created, initialised to the empty list, even for a section with no rows,
and a later section with the same label resets the bucket, discarding the
entries of an earlier same-labelled section); no section with the label
means no bucket. -/
theorem relevant_bucket_is_last_same_labelled_section
    (u : String) (secs : List SubmissionSection) (et : String)
    (h : et ∈ RELEVANT_ENTITY_TYPES) :
    pyLookup (parseSections u secs []) et =
      Option.map (fun sec => PyVal.list (sec.rows.map (fun r => PyVal.dict (parseRow u r))))
        (lastSectionWith secs et) := by
  rw [parseSections_lookup u et h secs []]
  cases hfl : lastSectionWith secs et with
  | some sec => rfl
  | none => rfl

theorem relevant_bucket_is_last_same_labelled_section_witness :
    pyLookup
        (parseSections "u"
          [SubmissionSection.mk (some "NGO")
            [SubmissionRow.mk "f" (fun _ => Except.error SelErr.noSuchElement)],
           SubmissionSection.mk (some "NGO") []] [])
        "NGO" =
      Option.map (fun sec => PyVal.list (sec.rows.map (fun r => PyVal.dict (parseRow "u" r))))
        (lastSectionWith
          [SubmissionSection.mk (some "NGO")
            [SubmissionRow.mk "f" (fun _ => Except.error SelErr.noSuchElement)],
           SubmissionSection.mk (some "NGO") []] "NGO") :=
  relevant_bucket_is_last_same_labelled_section "u"
    [SubmissionSection.mk (some "NGO")
      [SubmissionRow.mk "f" (fun _ => Except.error SelErr.noSuchElement)],
     SubmissionSection.mk (some "NGO") []] "NGO" (by decide)

/-- An `Elem` with the result at one XPath overridden (the same DOM node
with that one child present/absent changed). -/
def setFieldResult (e : Elem) (xp : String) (r : Except SelErr String) : Elem :=
  fun q => if q = xp then r else e q

/-- C6: when the DOM node of an optional text field is missing
(`find_element` raises `NoSuchElementException`), the parsed record still
carries that field's key, bound to `None`; no exception escapes (the parse
functions are total), and every other field of the record is exactly what
it would have been had the node been present.  This holds for the four
call-level fields of a grid and for the four text fields of a submission
row. -/
theorem missing_optional_field_is_null
    (u : String) (g : SubmissionGrid) (row : SubmissionRow) (key xp t : String) :
    ((key, xp) ∈ GRID_FIELDS → g.fields xp = Except.error SelErr.noSuchElement →
      (pyLookup (parseGrid u g) key = some PyVal.none ∧
       ∀ k, k ≠ key →
         pyLookup
             (parseGrid u (SubmissionGrid.mk (setFieldResult g.fields xp (Except.ok t)) g.sections)) k
           = pyLookup (parseGrid u g) k)) ∧
    ((key, xp) ∈ ROW_FIELDS → row.fields xp = Except.error SelErr.noSuchElement →
      (pyLookup (parseRow u row) key = some PyVal.none ∧
       ∀ k, k ≠ key →
         pyLookup
             (parseRow u (SubmissionRow.mk row.fileref (setFieldResult row.fields xp (Except.ok t)))) k
           = pyLookup (parseRow u row) k)) := by
  constructor
  · intro hg hfield
    simp only [GRID_FIELDS, List.mem_cons, List.not_mem_nil, or_false] at hg
    rcases hg with h | h | h | h <;>
      (injection h with hk hx; subst hk; subst hx;
       refine ⟨by simp [parseGrid_eq, pyLookup, find_text_element, hfield, optVal], ?_⟩;
       intro k hk2;
       simp [parseGrid_eq, pyLookup, find_text_element, setFieldResult,
         XP_ISSUE, XP_DEADLINE, XP_TITLE, XP_MANDATE, Ne.symm hk2])
  · intro hr hfield
    simp only [ROW_FIELDS, List.mem_cons, List.not_mem_nil, or_false] at hr
    rcases hr with h | h | h | h <;>
      (injection h with hk hx; subst hk; subst hx;
       refine ⟨by simp [parseRow, pyLookup, find_text_element, hfield, optVal], ?_⟩;
       intro k hk2;
       simp [parseRow, pyLookup, find_text_element, setFieldResult,
         XP_FILENAME, XP_ENTITY, XP_LANGUAGE, XP_DATE, Ne.symm hk2])

theorem missing_optional_field_is_null_witness :
    pyLookup
        (parseGrid "u" (SubmissionGrid.mk (fun _ => Except.error SelErr.noSuchElement) []))
        "title" = some PyVal.none ∧
      pyLookup
          (parseGrid "u"
            (SubmissionGrid.mk
              (setFieldResult (fun _ => Except.error SelErr.noSuchElement) XP_TITLE
                (Except.ok "x")) []))
          "mandate"
        = pyLookup
            (parseGrid "u" (SubmissionGrid.mk (fun _ => Except.error SelErr.noSuchElement) []))
            "mandate" :=
  ⟨((missing_optional_field_is_null "u"
        (SubmissionGrid.mk (fun _ => Except.error SelErr.noSuchElement) [])
        (SubmissionRow.mk "f" (fun _ => Except.error SelErr.noSuchElement))
        "title" XP_TITLE "x").1 (by decide) rfl).1,
   ((missing_optional_field_is_null "u"
        (SubmissionGrid.mk (fun _ => Except.error SelErr.noSuchElement) [])
        (SubmissionRow.mk "f" (fun _ => Except.error SelErr.noSuchElement))
        "title" XP_TITLE "x").1 (by decide) rfl).2 "mandate" (by decide)⟩

/-- Number of records parsed from the pages before page `i`. -/
def offsetBefore (pages : List (List SubmissionGrid)) (i : Nat) : Nat :=
  ((pages.take i).map List.length).sum

theorem paginate_eq (u : String) :
    ∀ (rest : List (List SubmissionGrid)) (cur : List SubmissionGrid)
      (acc : List (List (String × PyVal))),
      paginate u cur rest acc = acc ++ ((cur :: rest).map (parseSubmissionsOnPage u)).flatten := by
  intro rest
  induction rest with
  | nil => intro cur acc; simp [paginate]
  | cons p ps ih =>
    intro cur acc
    have : paginate u cur (p :: ps) acc = paginate u p ps (acc ++ parseSubmissionsOnPage u cur) := by
      simp [paginate]
    rw [this, ih]
    simp [List.append_assoc]

theorem flatten_pages_get (u : String) :
    ∀ (pages : List (List SubmissionGrid)) (i j : Nat) (pg : List SubmissionGrid)
      (g : SubmissionGrid),
      pages.get? i = some pg → pg.get? j = some g →
      ((pages.map (parseSubmissionsOnPage u)).flatten).get? (offsetBefore pages i + j)
        = some (parseGrid u g) := by
  intro pages
  induction pages with
  | nil => intro i j pg g hi; simp at hi
  | cons p ps ih =>
    intro i j pg g hi hj
    cases i with
    | zero =>
      have hpg : p = pg := by simpa using hi
      subst hpg
      have hj' : (p.map (parseGrid u)).get? j = some (parseGrid u g) := by
        rw [List.get?_map, hj]
        rfl
      have hlt : j < (p.map (parseGrid u)).length := by
        rcases List.get?_eq_some.mp hj' with ⟨hl, _⟩
        exact hl
      have : offsetBefore (p :: ps) 0 + j = j := by simp [offsetBefore]
      rw [this]
      simp only [List.map_cons, List.flatten_cons, parseSubmissionsOnPage]
      rw [List.get?_append hlt]
      exact hj'
    | succ i =>
      have hi' : ps.get? i = some pg := by simpa using hi
      have hoff : offsetBefore (p :: ps) (i + 1) + j
          = p.length + (offsetBefore ps i + j) := by
        simp [offsetBefore, List.take_succ_cons]
        omega
      rw [hoff]
      simp only [List.map_cons, List.flatten_cons, parseSubmissionsOnPage]
      rw [List.get?_append_right (by simp)]
      have : p.length + (offsetBefore ps i + j) - (p.map (parseGrid u)).length
          = offsetBefore ps i + j := by simp
      rw [this]
      exact ih i j pg g hi' hj

/-- C5: for every panel, the pagination loop of `parse_submissions` parses
the rendered rows of the first page and of every page reached by the
next-page control, stopping exactly when the control is absent; the
aggregated output is the accumulator followed by the concatenation of the
per-page parses (so every row of every page occurs exactly once, in page
order): the record of row `j` of page `i` sits exactly at index
`offsetBefore pages i + j`. -/
theorem paginate_collects_all_pages_in_order
    (u : String) (cur : List SubmissionGrid) (rest : List (List SubmissionGrid))
    (acc : List (List (String × PyVal))) :
    paginate u cur rest acc
        = acc ++ ((cur :: rest).map (parseSubmissionsOnPage u)).flatten ∧
      ∀ (i j : Nat) (pg : List SubmissionGrid) (g : SubmissionGrid),
        (cur :: rest).get? i = some pg → pg.get? j = some g →
        (paginate u cur rest []).get? (offsetBefore (cur :: rest) i + j)
          = some (parseGrid u g) := by
  refine ⟨paginate_eq u rest cur acc, ?_⟩
  intro i j pg g hi hj
  rw [paginate_eq u rest cur []]
  simpa using flatten_pages_get u (cur :: rest) i j pg g hi hj

theorem paginate_collects_all_pages_in_order_witness :
    (paginate "u"
        [SubmissionGrid.mk (fun _ => Except.error SelErr.noSuchElement) []]
        [[SubmissionGrid.mk (fun _ => Except.ok "t2") []]] []).get?
        (offsetBefore
          [[SubmissionGrid.mk (fun _ => Except.error SelErr.noSuchElement) []],
           [SubmissionGrid.mk (fun _ => Except.ok "t2") []]] 1 + 0)
      = some (parseGrid "u" (SubmissionGrid.mk (fun _ => Except.ok "t2") [])) :=
  (paginate_collects_all_pages_in_order "u"
      [SubmissionGrid.mk (fun _ => Except.error SelErr.noSuchElement) []]
      [[SubmissionGrid.mk (fun _ => Except.ok "t2") []]] []).2 1 0
    [SubmissionGrid.mk (fun _ => Except.ok "t2") []]
    (SubmissionGrid.mk (fun _ => Except.ok "t2") []) rfl rfl

/-! ## str.replace lemmas -/

theorem isPrefixOf_append_self (l r : List Char) : l.isPrefixOf (l ++ r) = true := by
  induction l with
  | nil => simp [List.isPrefixOf]
  | cons a as ih => simp [List.isPrefixOf, ih]

theorem pyReplace_append_left_no_match (pat rep : List Char) :
    ∀ (pre rest : List Char),
      (∀ i, i < pre.length → pat.isPrefixOf ((pre ++ rest).drop i) = false) →
      pyReplace (pre ++ rest) pat rep = pre ++ pyReplace rest pat rep := by
  intro pre
  induction pre with
  | nil => intro rest _; simp
  | cons c pre ih =>
    intro rest h
    have h0 : pat.isPrefixOf (c :: (pre ++ rest)) = false := by
      have := h 0 (by simp)
      simpa using this
    have hc : ¬(pat ≠ [] ∧ pat.isPrefixOf (c :: (pre ++ rest)) = true) := by
      intro hc
      rw [h0] at hc
      exact absurd hc.2 (by simp)
    have hrec := ih rest (fun i hi => by
      have := h (i + 1) (by simp; omega)
      simpa using this)
    simp only [List.cons_append, pyReplace, dif_neg hc]
    rw [hrec]

theorem pyReplace_cons_match (pat suf rep : List Char) (hpat : pat ≠ []) :
    pyReplace (pat ++ suf) pat rep = rep ++ pyReplace suf pat rep := by
  cases pat with
  | nil => exact absurd rfl hpat
  | cons a as =>
    have hp : (a :: as).isPrefixOf (a :: as ++ suf) = true := isPrefixOf_append_self (a :: as) suf
    have hc : (a :: as) ≠ [] ∧ (a :: as).isPrefixOf (a :: (as ++ suf)) = true :=
      ⟨by simp, by simpa using hp⟩
    simp only [List.cons_append, pyReplace, dif_pos hc]
    congr 1
    have : (a :: (as ++ suf)).drop (a :: as).length = suf := by
      simp only [List.length_cons, List.drop_succ_cons]
      exact List.drop_left as suf
    rw [this]

theorem pyReplace_id_of_no_match (pat rep : List Char) :
    ∀ (s : List Char),
      (∀ i, i < s.length → pat.isPrefixOf (s.drop i) = false) →
      pyReplace s pat rep = s := by
  intro s
  induction s with
  | nil => intro _; simp [pyReplace]
  | cons c cs ih =>
    intro h
    have h0 : pat.isPrefixOf (c :: cs) = false := by simpa using h 0 (by simp)
    have hc : ¬(pat ≠ [] ∧ pat.isPrefixOf (c :: cs) = true) := by
      intro hc
      rw [h0] at hc
      exact absurd hc.2 (by simp)
    have hrec := ih (fun i hi => by
      have := h (i + 1) (by simp; omega)
      simpa using this)
    simp only [pyReplace, dif_neg hc]
    rw [hrec]

/-- C3: the `submission_url` of a parsed row is the current URL with the
base-path segment `/sites/submissionsstaging/Pages/Home.aspx` replaced by
the row's `fileref` attribute; when that segment occurs exactly once in the
URL (no occurrence starts inside the prefix and none occurs in the
suffix), everything before and after the segment is left unchanged. -/
theorem submission_url_replaces_base_path
    (pre suf rep : List Char) (flds : Elem)
    (h1 : ∀ i, i < pre.length →
      BASE_PATH.toList.isPrefixOf ((pre ++ BASE_PATH.toList ++ suf).drop i) = false)
    (h2 : ∀ i, i < suf.length → BASE_PATH.toList.isPrefixOf (suf.drop i) = false) :
    pyLookup
        (parseRow (String.mk (pre ++ BASE_PATH.toList ++ suf))
          (SubmissionRow.mk (String.mk rep) flds))
        "submission_url"
      = some (PyVal.str (String.mk (pre ++ rep ++ suf))) := by
  have hbase : BASE_PATH.data ≠ [] := by decide
  have hrepl : pyReplace (pre ++ (BASE_PATH.data ++ suf)) BASE_PATH.data rep
      = pre ++ (rep ++ suf) := by
    rw [pyReplace_append_left_no_match BASE_PATH.data rep pre (BASE_PATH.data ++ suf)
      (fun i hi => by
        have := h1 i hi
        simpa [String.toList, List.append_assoc] using this)]
    rw [pyReplace_cons_match BASE_PATH.data suf rep hbase]
    rw [pyReplace_id_of_no_match BASE_PATH.data rep suf
      (fun i hi => by simpa [String.toList] using h2 i hi)]
  simp [parseRow, pyLookup, pyReplaceStr, String.toList]
  rw [hrepl]

theorem submission_url_replaces_base_path_witness :
    pyLookup
        (parseRow
          (String.mk
            (String.toList "https://www4.unfccc.int" ++ BASE_PATH.toList
              ++ String.toList ""))
          (SubmissionRow.mk
            (String.mk (String.toList "/sites/default/files/resource/ABC_2022.pdf"))
            (fun _ => Except.error SelErr.noSuchElement)))
        "submission_url"
      = some (PyVal.str
          (String.mk
            (String.toList "https://www4.unfccc.int"
              ++ String.toList "/sites/default/files/resource/ABC_2022.pdf"
              ++ String.toList ""))) :=
  submission_url_replaces_base_path
    (String.toList "https://www4.unfccc.int")
    (String.toList "")
    (String.toList "/sites/default/files/resource/ABC_2022.pdf")
    (fun _ => Except.error SelErr.noSuchElement)
    (by decide) (by decide)

/-! ## write_to_csv lemmas -/

theorem mapExcept_ok_mem {α β ε : Type} (f : α → Except ε β) :
    ∀ (xs : List α) (ys : List β), mapExcept f xs = Except.ok ys →
      ∀ y ∈ ys, ∃ x ∈ xs, f x = Except.ok y := by
  intro xs
  induction xs with
  | nil =>
    intro ys h y hy
    simp only [mapExcept, Except.ok.injEq] at h
    subst h
    simp at hy
  | cons a rest ih =>
    intro ys h y hy
    simp only [mapExcept] at h
    cases hfa : f a with
    | error e => rw [hfa] at h; exact absurd h (by simp)
    | ok b =>
      rw [hfa] at h
      cases hrest : mapExcept f rest with
      | error e => rw [hrest] at h; exact absurd h (by simp)
      | ok bs =>
        rw [hrest] at h
        simp only [Except.ok.injEq] at h
        subst h
        rcases List.mem_cons.mp hy with hb | hbs
        · exact ⟨a, List.mem_cons_self a rest, by rw [hfa, hb]⟩
        · rcases ih bs hrest y hbs with ⟨x, hx, hfx⟩
          exact ⟨x, List.mem_cons_of_mem a hx, hfx⟩

theorem pyContains_pyInsert_of {β : Type} (d : List (String × β)) (k k0 : String) (v0 : β)
    (h : pyContains d k = true) : pyContains (pyInsert d k0 v0) k = true := by
  by_cases hk : k = k0
  · subst hk
    simp [pyContains, pyLookup_pyInsert_self]
  · simpa [pyContains, pyLookup_pyInsert_ne d k0 k v0 hk] using h

theorem pyContains_pyMerge_left {β : Type} (b : List (String × β)) :
    ∀ (a : List (String × β)) (k : String),
      pyContains a k = true → pyContains (pyMerge a b) k = true := by
  induction b with
  | nil => intro a k h; simpa [pyMerge] using h
  | cons kv rest ih =>
    intro a k h
    have : pyMerge a (kv :: rest) = pyMerge (pyInsert a kv.1 kv.2) rest := rfl
    rw [this]
    exact ih (pyInsert a kv.1 kv.2) k (pyContains_pyInsert_of a k kv.1 kv.2 h)

theorem csvRowOf_ok_has_entity_type (fields : List (String × PyVal)) (et : String)
    (sub : PyVal) (r : List (String × PyVal)) (h : csvRowOf fields et sub = Except.ok r) :
    pyContains r "entity_type" = true := by
  cases sub with
  | dict sd =>
    simp only [csvRowOf, Except.ok.injEq] at h
    subst h
    refine pyContains_pyMerge_left fields (pyInsert sd "entity_type" (PyVal.str et)) _ ?_
    simp [pyContains, pyLookup_pyInsert_self]
  | none => exact absurd h (by simp [csvRowOf])
  | str s => exact absurd h (by simp [csvRowOf])
  | list l => exact absurd h (by simp [csvRowOf])

theorem csvRowsOfBucket_ok_has_entity_type (fields : List (String × PyVal))
    (bucket : String × PyVal) (brs : List (List (String × PyVal)))
    (h : csvRowsOfBucket fields bucket = Except.ok brs) :
    ∀ r ∈ brs, pyContains r "entity_type" = true := by
  obtain ⟨et, v⟩ := bucket
  intro r hr
  cases v with
  | list subs =>
    simp only [csvRowsOfBucket] at h
    rcases mapExcept_ok_mem (csvRowOf fields et) subs brs h r hr with ⟨sub, _, hsub⟩
    exact csvRowOf_ok_has_entity_type fields et sub r hsub
  | none => exact absurd h (by simp [csvRowsOfBucket])
  | str s => exact absurd h (by simp [csvRowsOfBucket])
  | dict d => exact absurd h (by simp [csvRowsOfBucket])

theorem csvRowsOfIssue_ok_has_entity_type (meta : List (String × PyVal)) (iv : PyVal)
    (rl : List (List (String × PyVal))) (h : csvRowsOfIssue meta iv = Except.ok rl) :
    ∀ r ∈ rl, pyContains r "entity_type" = true := by
  intro r hr
  cases iv with
  | dict issue =>
    simp only [csvRowsOfIssue] at h
    by_cases hcont : pyContains issue "submissions" = true
    · rw [if_pos hcont] at h
      split at h
      case _ buckets heq =>
        split at h
        case _ rowss hm =>
          simp only [Except.ok.injEq] at h
          subst h
          rcases List.mem_flatten.mp hr with ⟨brs, hbrs, hrbrs⟩
          rcases mapExcept_ok_mem _ buckets rowss hm brs hbrs with ⟨bucket, _, hb⟩
          exact csvRowsOfBucket_ok_has_entity_type _ bucket brs hb r hrbrs
        case _ e hm => exact absurd h (by simp)
      case _ v hne => exact absurd h (by simp)
      case _ => exact absurd h (by simp)
    · rw [if_neg hcont] at h
      simp only [Except.ok.injEq] at h
      subst h
      simp at hr
  | none => exact absurd h (by simp [csvRowsOfIssue])
  | str s => exact absurd h (by simp [csvRowsOfIssue])
  | list l => exact absurd h (by simp [csvRowsOfIssue])

/-- C9: `write_to_csv` mutates the envelope: it pops `submissions_data`
(the post-state of the argument, returned here explicitly, no longer
contains the records) and tags every emitted submission dict with an
`entity_type` key.  Hence `write_to_json` must run first, as `main` does,
for the JSON file to contain the collected data. -/
theorem write_to_csv_pops_records_and_tags_entity_type
    (env : List (String × PyVal)) (rows : List (List (String × PyVal)))
    (meta : List (String × PyVal))
    (hok : write_to_csv env = Except.ok (rows, meta)) :
    meta = pyRemove env "submissions_data" ∧
      pyLookup meta "submissions_data" = Option.none ∧
      ∀ r ∈ rows, pyContains r "entity_type" = true := by
  simp only [write_to_csv] at hok
  split at hok
  · exact absurd hok (by simp)
  · rename_i all hlk
    split at hok
    · rename_i issues
      split at hok
      · rename_i rowss hm
        simp only [Except.ok.injEq, Prod.mk.injEq] at hok
        obtain ⟨hrows, hmeta⟩ := hok
        subst hrows
        subst hmeta
        refine ⟨rfl, pyLookup_pyRemove_self env "submissions_data", ?_⟩
        intro r hr
        rcases List.mem_flatten.mp hr with ⟨rl, hrl, hrrl⟩
        rcases mapExcept_ok_mem _ issues rowss hm rl hrl with ⟨iv, _, hiv⟩
        exact csvRowsOfIssue_ok_has_entity_type _ iv rl hiv r hrrl
      · exact absurd hok (by simp)
    · exact absurd hok (by simp)

theorem write_to_csv_pops_records_and_tags_entity_type_witness :
    pyLookup [("data_source", PyVal.str "s"), ("collected_at", PyVal.str "c")]
        "submissions_data" = Option.none ∧
      pyContains
        [("submission_name", PyVal.str "n"), ("entity_type", PyVal.str "Party"),
         ("issue", PyVal.str "i"), ("data_source", PyVal.str "s"),
         ("collected_at", PyVal.str "c")]
        "entity_type" = true :=
  ⟨(write_to_csv_pops_records_and_tags_entity_type
      [("data_source", PyVal.str "s"), ("collected_at", PyVal.str "c"),
       ("submissions_data", PyVal.list
         [PyVal.dict
           [("issue", PyVal.str "i"),
            ("submissions", PyVal.dict
              [("Party", PyVal.list
                [PyVal.dict [("submission_name", PyVal.str "n")]])])]])]
      [[("submission_name", PyVal.str "n"), ("entity_type", PyVal.str "Party"),
        ("issue", PyVal.str "i"), ("data_source", PyVal.str "s"),
        ("collected_at", PyVal.str "c")]]
      [("data_source", PyVal.str "s"), ("collected_at", PyVal.str "c")]
      rfl).2.1,
   (write_to_csv_pops_records_and_tags_entity_type
      [("data_source", PyVal.str "s"), ("collected_at", PyVal.str "c"),
       ("submissions_data", PyVal.list
         [PyVal.dict
           [("issue", PyVal.str "i"),
            ("submissions", PyVal.dict
              [("Party", PyVal.list
                [PyVal.dict [("submission_name", PyVal.str "n")]])])]])]
      [[("submission_name", PyVal.str "n"), ("entity_type", PyVal.str "Party"),
        ("issue", PyVal.str "i"), ("data_source", PyVal.str "s"),
        ("collected_at", PyVal.str "c")]]
      [("data_source", PyVal.str "s"), ("collected_at", PyVal.str "c")]
      rfl).2.2
     [("submission_name", PyVal.str "n"), ("entity_type", PyVal.str "Party"),
      ("issue", PyVal.str "i"), ("data_source", PyVal.str "s"),
      ("collected_at", PyVal.str "c")]
     (List.mem_singleton.mpr rfl)⟩

/-! ## Key-uniqueness lemmas (every Python dict has unique keys, and every
dict operation of the program preserves that) -/

def keysNodup {β : Type} (d : List (String × β)) : Prop := (d.map Prod.fst).Nodup

theorem mem_keys_pyInsert {β : Type} (d : List (String × β)) (k : String) (v : β)
    (x : String) (hx : x ∈ (pyInsert d k v).map Prod.fst) :
    x ∈ d.map Prod.fst ∨ x = k := by
  induction d with
  | nil => simpa [pyInsert] using hx
  | cons kv rest ih =>
    by_cases h : kv.1 = k
    · rw [pyInsert, if_pos h] at hx
      simp only [List.map_cons] at hx ⊢
      exact Or.inl hx
    · rw [pyInsert, if_neg h] at hx
      simp only [List.map_cons, List.mem_cons] at hx ⊢
      rcases hx with h1 | h2
      · exact Or.inl (Or.inl h1)
      · rcases ih h2 with h3 | h4
        · exact Or.inl (Or.inr h3)
        · exact Or.inr h4

theorem keysNodup_pyInsert {β : Type} (d : List (String × β)) (k : String) (v : β)
    (h : keysNodup d) : keysNodup (pyInsert d k v) := by
  induction d with
  | nil => simp [keysNodup, pyInsert]
  | cons kv rest ih =>
    simp only [keysNodup, List.map_cons, List.nodup_cons] at h
    obtain ⟨hne, hnd⟩ := h
    by_cases h1 : kv.1 = k
    · rw [pyInsert, if_pos h1]
      simp only [keysNodup, List.map_cons, List.nodup_cons]
      exact ⟨hne, hnd⟩
    · rw [pyInsert, if_neg h1]
      simp only [keysNodup, List.map_cons, List.nodup_cons]
      refine ⟨?_, ih hnd⟩
      intro hmem
      rcases mem_keys_pyInsert rest k v kv.1 hmem with h2 | h3
      · exact hne h2
      · exact h1 h3

theorem keysNodup_foldl_pyInsert {β : Type} (l : List (String × β)) :
    ∀ (d : List (String × β)), keysNodup d →
      keysNodup (l.foldl (fun d2 kv => pyInsert d2 kv.1 kv.2) d) := by
  induction l with
  | nil => intro d h; exact h
  | cons kv rest ih =>
    intro d h
    exact ih (pyInsert d kv.1 kv.2) (keysNodup_pyInsert d kv.1 kv.2 h)

theorem keysNodup_pyMerge {β : Type} (a b : List (String × β)) (h : keysNodup a) :
    keysNodup (pyMerge a b) :=
  keysNodup_foldl_pyInsert b a h

theorem keys_pyRemove_sublist {β : Type} (d : List (String × β)) (k : String) :
    ((pyRemove d k).map Prod.fst).Sublist (d.map Prod.fst) := by
  induction d with
  | nil => simp [pyRemove]
  | cons kv rest ih =>
    by_cases h : kv.1 = k
    · rw [pyRemove, if_pos h]
      simp only [List.map_cons]
      exact ih.cons kv.1
    · rw [pyRemove, if_neg h]
      simp only [List.map_cons]
      exact ih.cons₂ kv.1

theorem keysNodup_pyRemove {β : Type} (d : List (String × β)) (k : String)
    (h : keysNodup d) : keysNodup (pyRemove d k) :=
  List.Nodup.sublist (keys_pyRemove_sublist d k) h

theorem keysNodup_renameIssueKeys (issue : List (String × PyVal)) :
    keysNodup (renameIssueKeys issue) := by
  have : keysNodup ([] : List (String × PyVal)) := by simp [keysNodup]
  have h := keysNodup_foldl_pyInsert
    (issue.map (fun kv => (renameKey kv.1, kv.2))) [] this
  simpa [renameIssueKeys, List.foldl_map] using h

theorem keysNodup_callFields (meta issue : List (String × PyVal)) :
    keysNodup (callFields meta issue) :=
  keysNodup_pyRemove _ _ (keysNodup_pyMerge _ meta (keysNodup_renameIssueKeys issue))

theorem pyLookup_pyMerge_not_mem_right {β : Type} (b : List (String × β)) :
    ∀ (a : List (String × β)) (k : String), k ∉ b.map Prod.fst →
      pyLookup (pyMerge a b) k = pyLookup a k := by
  induction b with
  | nil => intro a k _; rfl
  | cons kv rest ih =>
    intro a k hk
    simp only [List.map_cons, List.mem_cons, not_or] at hk
    obtain ⟨h1, h2⟩ := hk
    have : pyMerge a (kv :: rest) = pyMerge (pyInsert a kv.1 kv.2) rest := rfl
    rw [this, ih (pyInsert a kv.1 kv.2) k h2, pyLookup_pyInsert_ne a kv.1 k kv.2 h1]

theorem pyLookup_pyMerge_right {β : Type} (b : List (String × β)) :
    ∀ (a : List (String × β)) (k : String), keysNodup b → pyContains b k = true →
      pyLookup (pyMerge a b) k = pyLookup b k := by
  induction b with
  | nil => intro a k _ hc; simp [pyContains, pyLookup] at hc
  | cons kv rest ih =>
    intro a k hnd hc
    simp only [keysNodup, List.map_cons, List.nodup_cons] at hnd
    obtain ⟨hnmem, hndrest⟩ := hnd
    have hstep : pyMerge a (kv :: rest) = pyMerge (pyInsert a kv.1 kv.2) rest := rfl
    by_cases hk : kv.1 = k
    · subst hk
      rw [hstep, pyLookup_pyMerge_not_mem_right rest (pyInsert a kv.1 kv.2) kv.1 hnmem,
        pyLookup_pyInsert_self]
      simp [pyLookup]
    · have hcrest : pyContains rest k = true := by
        simpa [pyContains, pyLookup, hk] using hc
      rw [hstep, ih (pyInsert a kv.1 kv.2) k hndrest hcrest]
      simp [pyLookup, hk]

/-! ## The shape of the CSV rows -/

/-- Buckets of submission dicts, encoded as the value stored under the
`submissions` key. -/
def encodeBuckets (bs : List (String × List (List (String × PyVal)))) :
    List (String × PyVal) :=
  bs.map (fun p => (p.1, PyVal.list (p.2.map PyVal.dict)))

/-- One CSV row per submission of every bucket: the submission dict, tagged
with its bucket's entity-type label, merged with the repeated call-level
fields. -/
def expectedCsvRows (fields : List (String × PyVal))
    (bs : List (String × List (List (String × PyVal)))) :
    List (List (String × PyVal)) :=
  (bs.map (fun p =>
    p.2.map (fun sd => pyMerge (pyInsert sd "entity_type" (PyVal.str p.1)) fields))).flatten

theorem mapExcept_csvRowOf_dicts (fields : List (String × PyVal)) (et : String)
    (l : List (List (String × PyVal))) :
    mapExcept (csvRowOf fields et) (l.map PyVal.dict)
      = Except.ok (l.map (fun sd => pyMerge (pyInsert sd "entity_type" (PyVal.str et)) fields)) := by
  induction l with
  | nil => rfl
  | cons sd rest ih => simp [mapExcept, csvRowOf, ih]

theorem mapExcept_csvRowsOfBucket_encode (fields : List (String × PyVal))
    (bs : List (String × List (List (String × PyVal)))) :
    mapExcept (csvRowsOfBucket fields) (encodeBuckets bs)
      = Except.ok (bs.map (fun p =>
          p.2.map (fun sd => pyMerge (pyInsert sd "entity_type" (PyVal.str p.1)) fields))) := by
  induction bs with
  | nil => rfl
  | cons p rest ih =>
    simp only [encodeBuckets] at ih ⊢
    simp [mapExcept, csvRowsOfBucket, mapExcept_csvRowOf_dicts, ih]

/-- C8: for a call record whose `submissions` dict holds buckets of
submission dicts, `write_to_csv` emits exactly one row per submission (the
row count is the sum of the bucket sizes); each row is the submission's own
dict, tagged with its bucket's entity-type label, merged with the repeated
call-level fields (the issue dict with every key except `issue` and
`submissions` renamed with an `issue_` prefix, plus the envelope metadata,
minus the popped `submissions` key), so all rows of the call agree on every
call-level field. -/
theorem csv_export_one_row_per_submission
    (ds ca : String) (issue : List (String × PyVal))
    (bs : List (String × List (List (String × PyVal))))
    (hcont : pyContains issue "submissions" = true)
    (hbuckets : pyLookup
        (pyMerge (renameIssueKeys issue)
          [("data_source", PyVal.str ds), ("collected_at", PyVal.str ca)])
        "submissions" = some (PyVal.dict (encodeBuckets bs))) :
    write_to_csv
        [("data_source", PyVal.str ds), ("collected_at", PyVal.str ca),
         ("submissions_data", PyVal.list [PyVal.dict issue])]
      = Except.ok
          (expectedCsvRows
            (callFields [("data_source", PyVal.str ds), ("collected_at", PyVal.str ca)] issue)
            bs,
           [("data_source", PyVal.str ds), ("collected_at", PyVal.str ca)]) ∧
      (expectedCsvRows
          (callFields [("data_source", PyVal.str ds), ("collected_at", PyVal.str ca)] issue)
          bs).length
        = (bs.map (fun p => p.2.length)).sum ∧
      ∀ r ∈ expectedCsvRows
          (callFields [("data_source", PyVal.str ds), ("collected_at", PyVal.str ca)] issue) bs,
        ∀ k, pyContains
            (callFields [("data_source", PyVal.str ds), ("collected_at", PyVal.str ca)] issue) k
            = true →
          pyLookup r k
            = pyLookup
                (callFields [("data_source", PyVal.str ds), ("collected_at", PyVal.str ca)]
                  issue) k := by
  have hmeta : pyRemove
      [("data_source", PyVal.str ds), ("collected_at", PyVal.str ca),
       ("submissions_data", PyVal.list [PyVal.dict issue])] "submissions_data"
      = [("data_source", PyVal.str ds), ("collected_at", PyVal.str ca)] := by
    simp [pyRemove]
  have hlk : pyLookup
      [("data_source", PyVal.str ds), ("collected_at", PyVal.str ca),
       ("submissions_data", PyVal.list [PyVal.dict issue])] "submissions_data"
      = some (PyVal.list [PyVal.dict issue]) := by
    simp [pyLookup]
  have hissue : csvRowsOfIssue
      [("data_source", PyVal.str ds), ("collected_at", PyVal.str ca)] (PyVal.dict issue)
      = Except.ok (expectedCsvRows
          (callFields [("data_source", PyVal.str ds), ("collected_at", PyVal.str ca)] issue)
          bs) := by
    simp [csvRowsOfIssue, hcont, hbuckets, mapExcept_csvRowsOfBucket_encode, expectedCsvRows]
  refine ⟨?_, ?_, ?_⟩
  · simp [write_to_csv, hlk, hmeta, mapExcept, hissue]
  · simp only [expectedCsvRows, List.length_flatten, List.map_map, Function.comp_def,
      List.length_map]
  · intro r hr k hk
    rcases List.mem_flatten.mp hr with ⟨l, hl, hrl⟩
    rcases List.mem_map.mp hl with ⟨p, _, hpl⟩
    subst hpl
    rcases List.mem_map.mp hrl with ⟨sd, _, hsd⟩
    rw [← hsd]
    exact pyLookup_pyMerge_right _ _ k
      (keysNodup_callFields [("data_source", PyVal.str ds), ("collected_at", PyVal.str ca)]
        issue) hk

theorem csv_export_one_row_per_submission_witness :
    write_to_csv
        [("data_source", PyVal.str "s"), ("collected_at", PyVal.str "c"),
         ("submissions_data", PyVal.list
           [PyVal.dict
             [("issue", PyVal.str "i"),
              ("submissions", PyVal.dict
                (encodeBuckets
                  [("Party",
                    [[("submission_name", PyVal.str "a")],
                     [("submission_name", PyVal.str "b")]])]))]])]
      = Except.ok
          (expectedCsvRows
            (callFields [("data_source", PyVal.str "s"), ("collected_at", PyVal.str "c")]
              [("issue", PyVal.str "i"),
               ("submissions", PyVal.dict
                 (encodeBuckets
                   [("Party",
                     [[("submission_name", PyVal.str "a")],
                      [("submission_name", PyVal.str "b")]])]))])
            [("Party",
              [[("submission_name", PyVal.str "a")],
               [("submission_name", PyVal.str "b")]])],
           [("data_source", PyVal.str "s"), ("collected_at", PyVal.str "c")]) ∧
      (expectedCsvRows
          (callFields [("data_source", PyVal.str "s"), ("collected_at", PyVal.str "c")]
            [("issue", PyVal.str "i"),
             ("submissions", PyVal.dict
               (encodeBuckets
                 [("Party",
                   [[("submission_name", PyVal.str "a")],
                    [("submission_name", PyVal.str "b")]])]))])
          [("Party",
            [[("submission_name", PyVal.str "a")],
             [("submission_name", PyVal.str "b")]])]).length
        = ([("Party",
             [[("submission_name", PyVal.str "a")],
              [("submission_name", PyVal.str "b")]])].map
            (fun p => p.2.length)).sum :=
  ⟨(csv_export_one_row_per_submission "s" "c"
      [("issue", PyVal.str "i"),
       ("submissions", PyVal.dict
         (encodeBuckets
           [("Party",
             [[("submission_name", PyVal.str "a")],
              [("submission_name", PyVal.str "b")]])]))]
      [("Party",
        [[("submission_name", PyVal.str "a")],
         [("submission_name", PyVal.str "b")]])]
      rfl rfl).1,
   (csv_export_one_row_per_submission "s" "c"
      [("issue", PyVal.str "i"),
       ("submissions", PyVal.dict
         (encodeBuckets
           [("Party",
             [[("submission_name", PyVal.str "a")],
              [("submission_name", PyVal.str "b")]])]))]
      [("Party",
        [[("submission_name", PyVal.str "a")],
         [("submission_name", PyVal.str "b")]])]
      rfl rfl).2.1⟩
